import Mathlib

/-!
Verification of `CsvConverter.py` (PyODCsvConverter).

The script drives a remote LibreOffice instance over the UNO bridge.  We give a
shallow embedding: the pure helpers (`get_file_ext`, `path_to_url`,
`dict_to_uno_properties`, the filter tables) are translated directly; the
remote service (desktop, document, sheets) is modelled by a small state record
describing how each remote call behaves, and `CsvConverter.convert` is
translated as a function that returns the list of remote-service events it
performs together with its outcome (`Except`), mirroring the control flow of
the source line by line (including the `try/except AttributeError` around
`document.refresh()` and the `try/finally` around the per-sheet loop).
-/

namespace PyODCsvConverter

/-! ## CPython library functions used by the script (POSIX flavour)

`os.path.splitext` and the two-argument `os.path.join` are modelled after
CPython `posixpath`.  Strings are manipulated through their character lists so
that every definition evaluates inside the kernel. -/

/-- Characters of the final path component: everything after the last `/`
(the whole string when there is no `/`). -/
def afterLastSlash (l : List Char) : List Char :=
  (l.reverse.takeWhile (fun c => c ≠ '/')).reverse

/-- Characters up to and including the last `/` (empty when there is no `/`). -/
def beforeLastSlash (l : List Char) : List Char :=
  (l.reverse.dropWhile (fun c => c ≠ '/')).reverse

/-- CPython `posixpath.splitext` restricted to the final path component `b`:
split at the last dot, unless every character before that dot in the component
is itself a dot (the hidden-file rule: `.bashrc`, `...` are not split). -/
def splitextComponent (b : List Char) : List Char × List Char :=
  match b.reverse.dropWhile (fun c => c ≠ '.') with
  | [] => (b, [])
  | _ :: stemRev =>
    if stemRev.all (fun c => c = '.') then (b, [])
    else (stemRev.reverse, '.' :: (b.reverse.takeWhile (fun c => c ≠ '.')).reverse)

/-- CPython `os.path.splitext` (POSIX): the dot split only applies inside the
final path component. -/
def os_path_splitext (p : String) : String × String :=
  let base := afterLastSlash p.data
  let dir := beforeLastSlash p.data
  let se := splitextComponent base
  (String.mk (dir ++ se.1), String.mk se.2)

/-- Bool test for `str.startswith("/")`. -/
def strStartsWithSlash (s : String) : Bool :=
  match s.data with
  | [] => false
  | c :: _ => c == '/'

/-- Bool test for `str.endswith("/")`. -/
def strEndsWithSlash (s : String) : Bool :=
  match s.data.reverse with
  | [] => false
  | c :: _ => c == '/'

/-- CPython `posixpath.join` for the two-argument call at source line 175:
an absolute second component replaces the first, otherwise a `/` separator is
inserted unless the first component is empty or already ends in `/`. -/
def os_path_join (a b : String) : String :=
  if strStartsWithSlash b then b
  else if a = "" ∨ strEndsWithSlash a then a ++ b
  else a ++ "/" ++ b

/-- CPython `str.lower`, character by character. -/
def strToLower (s : String) : String :=
  String.mk (s.data.map Char.toLower)

/-! ## Python dict operations

The script uses insertion-ordered dicts of string keys; we model them as
association lists in insertion order. -/

/-- Python `d[k]` / `d.get(k)`. -/
def dictGet {α : Type} (d : List (String × α)) (k : String) : Option α :=
  (d.find? (fun kv => kv.1 == k)).map (fun kv => kv.2)

/-- Python `k in d`. -/
def dictHasKey {α : Type} (d : List (String × α)) (k : String) : Bool :=
  (d.find? (fun kv => kv.1 == k)).isSome

/-- Python `d[k] = v`: replace in place when the key exists, else append. -/
def dictSet {α : Type} (d : List (String × α)) (k : String) (v : α) :
    List (String × α) :=
  if dictHasKey d k then d.map (fun kv => if kv.1 == k then (k, v) else kv)
  else d ++ [(k, v)]

/-- Python `d.update(e)`. -/
def dictUpdate {α : Type} (d e : List (String × α)) : List (String × α) :=
  e.foldl (fun acc kv => dictSet acc kv.1 kv.2) d

/-! ## Configuration and constants (source lines 42-63) -/

def DEFAULT_OPENOFFICE_HOST : String := "localhost"

def DEFAULT_OPENOFFICE_PORT : Nat := 2002

/-- Source lines 49-58: import filters for the extensions that need explicit
options; every other extension relies on service-side auto-detection. -/
def IMPORT_FILTER_MAP : List (String × List (String × String)) :=
  [("txt", [("FilterName", "Text (encoded)"), ("FilterOptions", "utf8")]),
   ("csv", [("FilterName", "Text - txt - csv (StarCalc)"), ("FilterOptions", "44,34,0")])]

/-- Source lines 60-63: the fixed export filter used for every sheet. -/
def CSV_EXPORT_FILTER : List (String × String) :=
  [("FilterName", "Text - txt - csv (StarCalc)"), ("FilterOptions", "44,34,0")]

/-! ## Reusable utility functions (source lines 69-90) -/

/-- Source lines 71-74.  The Python function is declared (by its comment) to
return `None` when the path has no extension, so the return type is `Option`;
but `os.path.splitext` always returns a string (possibly empty), hence the
`if ext is not None` guard always holds and the function in fact always
returns `ext[1:].lower()` — the implicit-`None` fall-through is dead code. -/
def get_file_ext (path : String) : Option String :=
  let ext := (os_path_splitext path).2
  some (strToLower (String.mk (ext.data.drop 1)))

/-- Source lines 80-81: `uno.systemPathToFileUrl(os.path.abspath(path))`.
Absolute-path resolution and URL escaping happen outside the repository and
depend on process state; the conversion is modelled as prefixing the URL
scheme, which keeps the system path verbatim and is injective. -/
def path_to_url (path : String) : String :=
  "file://" ++ path

/-- A UNO `PropertyValue` as filled in by `dict_to_uno_properties`: only the
`Name` and `Value` slots are set, and all values used by the script are
strings. -/
structure PropertyValue where
  Name : String
  Value : String
deriving DecidableEq, Repr

/-- Source lines 83-90: build the tuple of `PropertyValue`s from a dict, in
insertion order. -/
def dict_to_uno_properties (d : List (String × String)) : List PropertyValue :=
  d.map (fun kv => PropertyValue.mk kv.1 kv.2)

/-! ## Model of the remote service

`convert` issues remote calls strictly sequentially; we record them as a list
of events.  The behaviour of the remote side is captured by `RemoteDoc` (for a
successfully loaded document) and `Desktop.loadResult` (whether the load call
succeeds). -/

/-- Outcome of the `document.refresh()` call at source line 151.
`unsupported` means the document object has no `refresh` member, in which case
PyUNO raises `AttributeError` — caught at line 152.  `failure` is any other
exception raised by the remote call (e.g. a bridge failure), which line 152
does NOT catch. -/
inductive RefreshOutcome where
  | ok
  | unsupported
  | failure
deriving DecidableEq, Repr

/-- A successfully loaded remote document: its sheet display names in index
order (`Sheets.Count` = length, `getByIndex i` = i-th name), how `refresh()`
behaves, and the first sheet index (if any) whose `storeToURL` raises
`ErrorCodeIOException`. -/
structure RemoteDoc where
  sheetNames : List String
  refreshOutcome : RefreshOutcome
  storeFailsAt : Option Nat
deriving DecidableEq, Repr

/-- The desktop capability obtained in `CsvConverter.__init__`: behaviour of
its single `loadComponentFromURL` call (`none` = the remote load raises). -/
structure Desktop where
  loadResult : Option RemoteDoc
deriving DecidableEq, Repr

/-- The converter object: holds the desktop handle (source line 127). -/
structure CsvConverter where
  desktop : Desktop
deriving DecidableEq, Repr

/-- Remote-service calls performed by `convert`, in program order.  A `store`
event records a completed `storeToURL` call, i.e. an output file written. -/
inductive Event where
  | load (url : String) (props : List PropertyValue)
  | refreshCall
  | sleep (seconds : Nat)
  | setActiveSheet (index : Nat)
  | store (url : String) (props : List PropertyValue)
  | close (deliverOwnership : Bool)
deriving DecidableEq, Repr

/-- Exceptions that can escape `convert`: `ErrorCodeIOException` from a remote
load/store, or a non-`AttributeError` exception from `document.refresh()`. -/
inductive PyError where
  | errorCodeIOException
  | refreshFailure
deriving DecidableEq, Repr

/-! ## The conversion orchestrator (source lines 129-181) -/

/-- Source lines 170-173: the output base name of sheet `sheet_no`. -/
def sheet_output_basename (ignore_sheet_names : Bool) (sheet_no : Nat)
    (sheetName : String) : String :=
  if ignore_sheet_names then "sheet-" ++ toString (sheet_no + 1) else sheetName

/-- Source line 175: the URL a sheet is stored to (`output_ext` is the local
variable set to `"csv"` at line 137). -/
def sheet_output_url (output_dir : String) (ignore_sheet_names : Bool)
    (p : Nat × String) : String :=
  path_to_url (os_path_join output_dir
    (sheet_output_basename ignore_sheet_names p.1 p.2 ++ "." ++ "csv"))

/-- Source lines 139-144: `load_properties = {}` then updated with the import
filter when the lower-cased extension is a key of `IMPORT_FILTER_MAP`. -/
def load_properties_for (input_file : String) : List (String × String) :=
  let lp : List (String × String) := []
  match get_file_ext input_file with
  | some input_ext =>
    match dictGet IMPORT_FILTER_MAP input_ext with
    | some f => dictUpdate lp f
    | none => lp
  | none => lp

/-- Source lines 161-177: the `for sheet_no in range(doc_sheets.Count)` loop,
applied to the remaining `(index, name)` pairs.  Each iteration optionally
sleeps, activates the sheet, and stores it; a failing `storeToURL` raises
`ErrorCodeIOException` (no file written, loop abandoned). -/
def exportLoop (output_dir : String) (slow ignore_sheet_names : Bool)
    (storeFailsAt : Option Nat) :
    List (Nat × String) → List Event × Except PyError Unit
  | [] => ([], Except.ok ())
  | p :: rest =>
    let pre := (if slow then [Event.sleep 1] else []) ++ [Event.setActiveSheet p.1]
    if storeFailsAt = some p.1 then
      (pre, Except.error PyError.errorCodeIOException)
    else
      let r := exportLoop output_dir slow ignore_sheet_names storeFailsAt rest
      (pre ++ Event.store (sheet_output_url output_dir ignore_sheet_names p)
          (dict_to_uno_properties CSV_EXPORT_FILTER) :: r.1, r.2)

/-- Source lines 129-181, `CsvConverter.convert`.  Returns the events issued
to the remote service together with the outcome of the call:
* lines 139-148: build the load properties and call `loadComponentFromURL`
  (when it raises, nothing further runs — in particular no close);
* lines 150-153: `document.refresh()` with only `AttributeError` caught, so a
  `failure` outcome propagates before the `try/finally` block is entered;
* lines 155-181: the per-sheet loop inside `try`, and in `finally` a single
  `document.close(True)` unless `keep_open`. -/
def CsvConverter.convert (self : CsvConverter) (input_file output_dir : String)
    (slow keep_open ignore_sheet_names : Bool) :
    List Event × Except PyError Unit :=
  let load_properties := load_properties_for input_file
  let loadEvent := Event.load (path_to_url input_file)
    (dict_to_uno_properties load_properties)
  match self.desktop.loadResult with
  | none => ([loadEvent], Except.error PyError.errorCodeIOException)
  | some document =>
    let refreshEvents :=
      match document.refreshOutcome with
      | RefreshOutcome.unsupported => []
      | _ => [Event.refreshCall]
    match document.refreshOutcome with
    | RefreshOutcome.failure =>
      (loadEvent :: refreshEvents, Except.error PyError.refreshFailure)
    | _ =>
      let r := exportLoop output_dir slow ignore_sheet_names
        document.storeFailsAt document.sheetNames.enum
      let closeEvents := if keep_open then [] else [Event.close true]
      (loadEvent :: refreshEvents ++ r.1 ++ closeEvents, r.2)

/-! ## Exceptions and session construction (source lines 96-127) -/

/-- An ASCII single-quote character, used in the connection error message. -/
def squote : String := String.singleton (Char.ofNat 39)

/-- Source line 108: the default message of the connection exception. -/
def connectionDefaultMessage (host : String) (port : Nat) : String :=
  "Failed to connect to LibreOffice at host " ++ squote ++ host ++ squote
    ++ " and port " ++ toString port

/-- Source lines 104-114: `LibreOfficeConnectionException` (a subclass of
`CsvConversionException`): carries the host, the port and a message. -/
structure LibreOfficeConnectionException where
  host : String
  port : Nat
  message : String
deriving DecidableEq, Repr

/-- Source lines 118-127, `CsvConverter.__init__`: resolve the UNO url
`uno:socket,host=<host>,port=<port>;urp;StarOffice.ComponentContext`.
`resolveResult` models the transport: `none` means `resolver.resolve` raises
`NoConnectException`, which line 125 turns into
`LibreOfficeConnectionException(host, port)`; otherwise the resolved context
yields the desktop capability. -/
def CsvConverter.init (resolveResult : Option Desktop) (host : String)
    (port : Nat) : Except LibreOfficeConnectionException CsvConverter :=
  match resolveResult with
  | none => Except.error
      (LibreOfficeConnectionException.mk host port (connectionDefaultMessage host port))
  | some d => Except.ok (CsvConverter.mk d)

/-- Failures escaping the `try` block of `main` (source lines 225-232):
either the connection exception of the constructor or an exception from
`convert`. -/
inductive RunError where
  | connection (e : LibreOfficeConnectionException)
  | uno (e : PyError)
deriving DecidableEq, Repr

/-- Source lines 226-232: construct the converter, then convert.  When the
constructor raises, `convert` is never invoked and no remote document call is
made, so the event list is empty. -/
def session_and_convert (resolveResult : Option Desktop) (host : String)
    (port : Nat) (input_file output_dir : String)
    (slow keep_open ignore_sheet_names : Bool) :
    List Event × Except RunError Unit :=
  match CsvConverter.init resolveResult host port with
  | Except.error e => ([], Except.error (RunError.connection e))
  | Except.ok converter =>
    match converter.convert input_file output_dir slow keep_open ignore_sheet_names with
    | (tr, Except.ok u) => (tr, Except.ok u)
    | (tr, Except.error e) => (tr, Except.error (RunError.uno e))

/-! ## Trace observations -/

/-- Whether an event is a `document.close` call. -/
def Event.isClose : Event → Bool
  | Event.close _ => true
  | _ => false

/-- Whether an event is a `time.sleep` pause. -/
def Event.isSleep : Event → Bool
  | Event.sleep _ => true
  | _ => false

/-- Whether an event is the `document.refresh()` call. -/
def Event.isRefreshCall : Event → Bool
  | Event.refreshCall => true
  | _ => false

/-- Whether an event is a `setActiveSheet` call. -/
def Event.isSetActiveSheet : Event → Bool
  | Event.setActiveSheet _ => true
  | _ => false

/-- Predicate keeping every event except the `document.refresh()` call. -/
def notRefresh (e : Event) : Bool := !(Event.isRefreshCall e)

/-- Number of `close` calls in a trace. -/
def closeCount (tr : List Event) : Nat :=
  tr.countP Event.isClose

/-- Number of `sleep` pauses in a trace. -/
def sleepCount (tr : List Event) : Nat :=
  tr.countP Event.isSleep

/-- Number of `setActiveSheet` calls in a trace. -/
def setActiveCount (tr : List Event) : Nat :=
  tr.countP Event.isSetActiveSheet

/-- The URLs of the output files written, in order. -/
def storeUrls (tr : List Event) : List String :=
  tr.filterMap (fun e =>
    match e with
    | Event.store u _ => some u
    | _ => none)

/-! ## Structural lemmas about the export loop and `convert` -/

/-- The per-sheet loop never closes the document: `document.close` appears only
in the `finally` block outside the loop. -/
theorem exportLoop_closeCount (out : String) (slow ig : Bool) (f : Option Nat)
    (ps : List (Nat × String)) : closeCount (exportLoop out slow ig f ps).1 = 0 := by
  induction ps with
  | nil => rfl
  | cons p rest ih =>
    by_cases hf : f = some p.1 <;>
      cases slow <;>
        simp_all [exportLoop, closeCount, List.countP_append, List.countP_cons, Event.isClose]

/-- With no failing store, the loop runs to completion. -/
theorem exportLoop_result_none (out : String) (slow ig : Bool)
    (ps : List (Nat × String)) : (exportLoop out slow ig none ps).2 = Except.ok () := by
  induction ps with
  | nil => rfl
  | cons p rest ih => cases slow <;> simpa [exportLoop] using ih

/-- With no failing store, the loop writes exactly one file per listed sheet,
in order, at the computed URL. -/
theorem exportLoop_storeUrls_none (out : String) (slow ig : Bool)
    (ps : List (Nat × String)) :
    storeUrls (exportLoop out slow ig none ps).1 = ps.map (sheet_output_url out ig) := by
  induction ps with
  | nil => rfl
  | cons p rest ih =>
    cases slow <;> simp_all [exportLoop, storeUrls, List.filterMap_append]

/-- Without `slow`, the loop performs no pause. -/
theorem exportLoop_sleepCount_false (out : String) (ig : Bool) (f : Option Nat)
    (ps : List (Nat × String)) : sleepCount (exportLoop out false ig f ps).1 = 0 := by
  induction ps with
  | nil => rfl
  | cons p rest ih =>
    by_cases hf : f = some p.1 <;>
      simp_all [exportLoop, sleepCount, List.countP_append, List.countP_cons, Event.isSleep]

/-- With `slow`, the loop pauses exactly once per iteration it starts: the
pause count always equals the sheet-activation count. -/
theorem exportLoop_sleep_eq_setActive (out : String) (ig : Bool) (f : Option Nat)
    (ps : List (Nat × String)) :
    sleepCount (exportLoop out true ig f ps).1
      = setActiveCount (exportLoop out true ig f ps).1 := by
  induction ps with
  | nil => rfl
  | cons p rest ih =>
    by_cases hf : f = some p.1 <;>
      simp_all [exportLoop, sleepCount, setActiveCount, List.countP_append,
        List.countP_cons, Event.isSleep, Event.isSetActiveSheet]

/-- With `slow` and no failing store, the loop pauses exactly once per sheet. -/
theorem exportLoop_sleepCount_true_none (out : String) (ig : Bool)
    (ps : List (Nat × String)) :
    sleepCount (exportLoop out true ig none ps).1 = ps.length := by
  induction ps with
  | nil => rfl
  | cons p rest ih =>
    simp_all [exportLoop, sleepCount, List.countP_append, List.countP_cons,
      Event.isSleep, Event.isSetActiveSheet, Nat.add_comm]

/-- Closed form of a completed loop run: per sheet, an optional pause, the
sheet activation, then the store — in that order. -/
theorem exportLoop_events_none (out : String) (slow ig : Bool)
    (ps : List (Nat × String)) :
    exportLoop out slow ig none ps
      = (ps.flatMap (fun p =>
          (if slow then [Event.sleep 1] else [])
            ++ [Event.setActiveSheet p.1,
                Event.store (sheet_output_url out ig p)
                  (dict_to_uno_properties CSV_EXPORT_FILTER)]),
         Except.ok ()) := by
  induction ps with
  | nil => rfl
  | cons p rest ih => cases slow <;> simp_all [exportLoop]

/-- The loop never calls `document.refresh()` (count form). -/
theorem exportLoop_refreshCount (out : String) (slow ig : Bool) (f : Option Nat)
    (ps : List (Nat × String)) :
    (exportLoop out slow ig f ps).1.countP Event.isRefreshCall = 0 := by
  induction ps with
  | nil => rfl
  | cons p rest ih =>
    by_cases hf : f = some p.1 <;>
      cases slow <;>
        simp_all [exportLoop, List.countP_append, List.countP_cons, Event.isRefreshCall]

/-- The loop never calls `document.refresh()`. -/
theorem exportLoop_no_refresh (out : String) (slow ig : Bool) (f : Option Nat)
    (ps : List (Nat × String)) :
    ∀ e ∈ (exportLoop out slow ig f ps).1, Event.isRefreshCall e = false := by
  intro e he
  have h := exportLoop_refreshCount out slow ig f ps
  rw [List.countP_eq_zero] at h
  simpa using h e he

/-- Every store issued by the loop uses the fixed export filter. -/
theorem exportLoop_storeProps (out : String) (slow ig : Bool) (f : Option Nat)
    (ps : List (Nat × String)) :
    ∀ u pr, Event.store u pr ∈ (exportLoop out slow ig f ps).1 →
      pr = dict_to_uno_properties CSV_EXPORT_FILTER := by
  induction ps with
  | nil => intro u pr h; cases h
  | cons p rest ih =>
    intro u pr h
    by_cases hf : f = some p.1 <;> cases slow <;>
      simp_all [exportLoop] <;> tauto

/-- A failing store at sheet index `k` stops the loop there: the sheets before
`k` are written in order, nothing at or after `k` is written, and the loop
raises `ErrorCodeIOException`. -/
theorem exportLoop_fail (out : String) (slow ig : Bool) :
    ∀ (names : List String) (n k : Nat), n ≤ k → k < n + names.length →
    storeUrls (exportLoop out slow ig (some k) (List.enumFrom n names)).1
      = ((List.enumFrom n names).take (k - n)).map (sheet_output_url out ig)
    ∧ (exportLoop out slow ig (some k) (List.enumFrom n names)).2
      = Except.error PyError.errorCodeIOException := by
  intro names
  induction names with
  | nil => intro n k h1 h2; simp at h2; omega
  | cons x xs ih =>
    intro n k h1 h2
    rw [List.enumFrom_cons]
    by_cases hkn : k = n
    · subst hkn
      constructor
      · cases slow <;> simp [exportLoop, storeUrls, Nat.sub_self]
      · cases slow <;> simp [exportLoop]
    · have hlt : n < k := by omega
      have hrec := ih (n + 1) k (by omega) (by simpa [Nat.add_assoc, Nat.add_comm,
        Nat.add_left_comm] using h2)
      have htake : k - n = (k - (n + 1)) + 1 := by omega
      constructor
      · cases slow <;>
          simp_all [exportLoop, storeUrls, List.filterMap_append, hkn,
            htake, List.take_succ_cons]
      · cases slow <;> simp_all [exportLoop, hkn]

/-- Unfolding of `convert` on a loaded document whose refresh succeeds. -/
theorem convert_ok_eq (names : List String) (f : Option Nat)
    (input out : String) (slow keep ig : Bool) :
    CsvConverter.convert ⟨⟨some ⟨names, RefreshOutcome.ok, f⟩⟩⟩ input out slow keep ig
      = (Event.load (path_to_url input)
            (dict_to_uno_properties (load_properties_for input))
          :: Event.refreshCall
          :: (exportLoop out slow ig f names.enum).1
          ++ (if keep then [] else [Event.close true]),
         (exportLoop out slow ig f names.enum).2) := rfl

/-- Unfolding of `convert` on a loaded document with no refresh capability:
the caught `AttributeError` leaves no trace and the loop runs as usual. -/
theorem convert_unsupported_eq (names : List String) (f : Option Nat)
    (input out : String) (slow keep ig : Bool) :
    CsvConverter.convert ⟨⟨some ⟨names, RefreshOutcome.unsupported, f⟩⟩⟩ input out slow keep ig
      = (Event.load (path_to_url input)
            (dict_to_uno_properties (load_properties_for input))
          :: (exportLoop out slow ig f names.enum).1
          ++ (if keep then [] else [Event.close true]),
         (exportLoop out slow ig f names.enum).2) := rfl

/-- Unfolding of `convert` when the remote load call raises: the exception
propagates immediately, before the `try/finally`, so nothing else happens. -/
theorem convert_loadfail_eq (input out : String) (slow keep ig : Bool) :
    CsvConverter.convert ⟨⟨none⟩⟩ input out slow keep ig
      = ([Event.load (path_to_url input)
            (dict_to_uno_properties (load_properties_for input))],
         Except.error PyError.errorCodeIOException) := rfl

/-- Unfolding of `convert` when the refresh call raises something other than
`AttributeError`: the `except AttributeError` clause does not catch it and the
`try/finally` block is never entered, so no close happens. -/
theorem convert_refreshfail_eq (names : List String) (f : Option Nat)
    (input out : String) (slow keep ig : Bool) :
    CsvConverter.convert ⟨⟨some ⟨names, RefreshOutcome.failure, f⟩⟩⟩ input out slow keep ig
      = ([Event.load (path_to_url input)
            (dict_to_uno_properties (load_properties_for input)),
          Event.refreshCall],
         Except.error PyError.refreshFailure) := rfl

/-- Every run of `convert` begins with the load call, whose properties come
from the import-filter selection on the input extension. -/
theorem convert_head (d : Option RemoteDoc) (input out : String)
    (slow keep ig : Bool) :
    (CsvConverter.convert ⟨⟨d⟩⟩ input out slow keep ig).1.head?
      = some (Event.load (path_to_url input)
          (dict_to_uno_properties (load_properties_for input))) := by
  cases d with
  | none => rfl
  | some doc =>
    obtain ⟨names, r, f⟩ := doc
    cases r <;> rfl

/-! ## Claims -/

/-- C1 (counterexample): the claim says that with `keep_open=false`, after a
successful load the document is closed exactly once on every exit path,
including "any other failure raised after the load".  This fails on the code:
`document.refresh()` sits in its own `try/except AttributeError` (lines
150-153) BEFORE the `try/finally` that closes the document (lines 155-181),
so an exception other than `AttributeError` raised by the refresh call — after
a successful load — propagates with no close at all.  Concrete run: one-sheet
document whose refresh call raises, `keep_open=false`: the call errors and the
trace contains zero `close` events. -/
theorem claim1_counterexample :
    (CsvConverter.convert ⟨⟨some ⟨["Sheet1"], RefreshOutcome.failure, none⟩⟩⟩
        "book.ods" "out" false false false).2 = Except.error PyError.refreshFailure
    ∧ closeCount (CsvConverter.convert ⟨⟨some ⟨["Sheet1"], RefreshOutcome.failure, none⟩⟩⟩
        "book.ods" "out" false false false).1 = 0 :=
  ⟨rfl, by decide⟩

/-- C1 (amended): with `keep_open=false`, whenever the document load succeeded
and the refresh step does not raise a genuine (non-`AttributeError`) failure,
the document is closed exactly once before `convert` returns — on normal
success and on any failure inside the per-sheet export loop (arbitrary
`storeFailsAt`), with or without the refresh capability. -/
theorem claim1_close_exactly_once (doc : RemoteDoc) (input out : String)
    (slow ig : Bool) (h : doc.refreshOutcome ≠ RefreshOutcome.failure) :
    closeCount (CsvConverter.convert ⟨⟨some doc⟩⟩ input out slow false ig).1 = 1 := by
  obtain ⟨names, r, f⟩ := doc
  cases r with
  | failure => exact absurd rfl h
  | ok =>
    have hc := exportLoop_closeCount out slow ig f names.enum
    rw [convert_ok_eq]
    simp only [closeCount] at hc ⊢
    simp [List.countP_cons, List.countP_append, Event.isClose, hc]
  | unsupported =>
    have hc := exportLoop_closeCount out slow ig f names.enum
    rw [convert_unsupported_eq]
    simp only [closeCount] at hc ⊢
    simp [List.countP_cons, List.countP_append, Event.isClose, hc]

/-- C1 (witness): a two-sheet document whose second store fails, refresh
supported, `keep_open=false`: the close still happens exactly once. -/
theorem claim1_witness :
    ((⟨["A", "B"], RefreshOutcome.ok, some 1⟩ : RemoteDoc).refreshOutcome
        ≠ RefreshOutcome.failure)
    ∧ closeCount (CsvConverter.convert ⟨⟨some ⟨["A", "B"], RefreshOutcome.ok, some 1⟩⟩⟩
        "book.ods" "out" false false false).1 = 1 :=
  ⟨by decide, claim1_close_exactly_once ⟨["A", "B"], RefreshOutcome.ok, some 1⟩
    "book.ods" "out" false false (by decide)⟩

/-- C4: when the transport cannot establish the connection during session
construction, the constructor fails with `LibreOfficeConnectionException`
carrying exactly the supplied host and port (with the default message built
from them), `convert` is never invoked and no remote document call is made —
the event trace is empty, so in particular no document is opened. -/
theorem claim4_connection_failure (host : String) (port : Nat)
    (input out : String) (slow keep ig : Bool) :
    (session_and_convert none host port input out slow keep ig).1 = []
    ∧ (session_and_convert none host port input out slow keep ig).2
      = Except.error (RunError.connection
          (LibreOfficeConnectionException.mk host port
            (connectionDefaultMessage host port))) :=
  ⟨rfl, rfl⟩

/-- C5: with `keep_open=true` the core never closes the document handle, on
any exit path — load failure, refresh failure, export failure or success. -/
theorem claim5_keep_open_never_closes (d : Option RemoteDoc) (input out : String)
    (slow ig : Bool) :
    closeCount (CsvConverter.convert ⟨⟨d⟩⟩ input out slow true ig).1 = 0 := by
  cases d with
  | none => rfl
  | some doc =>
    obtain ⟨names, r, f⟩ := doc
    cases r with
    | failure => rfl
    | ok =>
      have hc := exportLoop_closeCount out slow ig f names.enum
      rw [convert_ok_eq]
      simp only [closeCount] at hc ⊢
      simp [List.countP_cons, List.countP_append, Event.isClose, hc]
    | unsupported =>
      have hc := exportLoop_closeCount out slow ig f names.enum
      rw [convert_unsupported_eq]
      simp only [closeCount] at hc ⊢
      simp [List.countP_cons, List.countP_append, Event.isClose, hc]

/-- A load event contributes no output file. -/
theorem storeUrls_cons_load (u : String) (p : List PropertyValue) (l : List Event) :
    storeUrls (Event.load u p :: l) = storeUrls l := rfl

/-- A refresh event contributes no output file. -/
theorem storeUrls_cons_refresh (l : List Event) :
    storeUrls (Event.refreshCall :: l) = storeUrls l := rfl

/-- A close event contributes no output file. -/
theorem storeUrls_cons_close (b : Bool) (l : List Event) :
    storeUrls (Event.close b :: l) = storeUrls l := rfl

/-- The empty trace has no output files. -/
theorem storeUrls_nil : storeUrls [] = [] := rfl

/-- `storeUrls` distributes over concatenation of traces. -/
theorem storeUrls_append (l m : List Event) :
    storeUrls (l ++ m) = storeUrls l ++ storeUrls m := by
  simp [storeUrls, List.filterMap_append]

/-- C2: a successful `convert` on a document with `N` sheets writes exactly one
output file per sheet, in sheet-index order; the file for sheet index `i` goes
to `<output_dir>/<name>.csv` where `name` is the display name of the sheet when
`ignore_sheet_names` is false and `sheet-<i+1>` when it is true (see
`sheet_output_url`/`sheet_output_basename`), for a total of `N` files. -/
theorem claim2_one_file_per_sheet (names : List String) (r : RefreshOutcome)
    (input out : String) (slow keep ig : Bool)
    (h : r ≠ RefreshOutcome.failure) :
    (CsvConverter.convert ⟨⟨some ⟨names, r, none⟩⟩⟩ input out slow keep ig).2
        = Except.ok ()
    ∧ storeUrls (CsvConverter.convert ⟨⟨some ⟨names, r, none⟩⟩⟩ input out slow keep ig).1
        = names.enum.map (sheet_output_url out ig)
    ∧ (storeUrls (CsvConverter.convert ⟨⟨some ⟨names, r, none⟩⟩⟩ input out slow keep ig).1).length
        = names.length := by
  have hurl := exportLoop_storeUrls_none out slow ig names.enum
  cases r with
  | failure => exact absurd rfl h
  | ok =>
    rw [convert_ok_eq]
    have hfull : storeUrls (Event.load (path_to_url input)
          (dict_to_uno_properties (load_properties_for input))
        :: Event.refreshCall
        :: (exportLoop out slow ig none names.enum).1
        ++ (if keep then [] else [Event.close true]))
        = names.enum.map (sheet_output_url out ig) := by
      simp only [List.cons_append]
      rw [storeUrls_cons_load, storeUrls_cons_refresh, storeUrls_append]
      cases keep <;>
        simp [hurl, storeUrls_cons_close, storeUrls_nil]
    exact ⟨exportLoop_result_none out slow ig names.enum, hfull,
      by rw [hfull, List.length_map, List.enum_length]⟩
  | unsupported =>
    rw [convert_unsupported_eq]
    have hfull : storeUrls (Event.load (path_to_url input)
          (dict_to_uno_properties (load_properties_for input))
        :: (exportLoop out slow ig none names.enum).1
        ++ (if keep then [] else [Event.close true]))
        = names.enum.map (sheet_output_url out ig) := by
      simp only [List.cons_append]
      rw [storeUrls_cons_load, storeUrls_append]
      cases keep <;>
        simp [hurl, storeUrls_cons_close, storeUrls_nil]
    exact ⟨exportLoop_result_none out slow ig names.enum, hfull,
      by rw [hfull, List.length_map, List.enum_length]⟩

/-- C2 (witness): a two-sheet document converts successfully into
`Products.csv` then `Summary.csv`, two files for two sheets. -/
theorem claim2_witness :
    (CsvConverter.convert ⟨⟨some ⟨["Products", "Summary"], RefreshOutcome.ok, none⟩⟩⟩
        "data.xlsx" "out" false false false).2 = Except.ok ()
    ∧ storeUrls (CsvConverter.convert
          ⟨⟨some ⟨["Products", "Summary"], RefreshOutcome.ok, none⟩⟩⟩
          "data.xlsx" "out" false false false).1
        = (["Products", "Summary"] : List String).enum.map (sheet_output_url "out" false)
    ∧ (storeUrls (CsvConverter.convert
          ⟨⟨some ⟨["Products", "Summary"], RefreshOutcome.ok, none⟩⟩⟩
          "data.xlsx" "out" false false false).1).length
        = (["Products", "Summary"] : List String).length :=
  claim2_one_file_per_sheet ["Products", "Summary"] RefreshOutcome.ok
    "data.xlsx" "out" false false false (by decide)

/-- C3: the import filter is selected from the lower-cased file extension of
the input path: when the extension is `csv`, the load call receives exactly
`FilterName = "Text - txt - csv (StarCalc)"`, `FilterOptions = "44,34,0"`;
when the extension is not a key of `IMPORT_FILTER_MAP`, the load call receives
an empty property set. -/
theorem claim3_import_filter_selection (d : Option RemoteDoc) (input out : String)
    (slow keep ig : Bool) :
    (get_file_ext input = some "csv" →
      (CsvConverter.convert ⟨⟨d⟩⟩ input out slow keep ig).1.head?
        = some (Event.load (path_to_url input)
            [PropertyValue.mk "FilterName" "Text - txt - csv (StarCalc)",
             PropertyValue.mk "FilterOptions" "44,34,0"]))
    ∧ (∀ e, get_file_ext input = some e → dictGet IMPORT_FILTER_MAP e = none →
      (CsvConverter.convert ⟨⟨d⟩⟩ input out slow keep ig).1.head?
        = some (Event.load (path_to_url input) [])) := by
  constructor
  · intro h
    have hlp : load_properties_for input
        = [("FilterName", "Text - txt - csv (StarCalc)"), ("FilterOptions", "44,34,0")] := by
      unfold load_properties_for
      rw [h]
      decide
    rw [convert_head, hlp]
    rfl
  · intro e he hd
    have hlp : load_properties_for input = [] := by
      simp only [load_properties_for, he]
      rw [hd]
    rw [convert_head, hlp]
    rfl

/-- C3 (witness): `sample.CSV` lower-cases to extension `csv` and gets the
explicit CSV import filter; `file.xyz` has an unregistered extension and gets
an empty load-property set. -/
theorem claim3_witness :
    get_file_ext "sample.CSV" = some "csv"
    ∧ (CsvConverter.convert ⟨⟨none⟩⟩ "sample.CSV" "out" false false false).1.head?
        = some (Event.load (path_to_url "sample.CSV")
            [PropertyValue.mk "FilterName" "Text - txt - csv (StarCalc)",
             PropertyValue.mk "FilterOptions" "44,34,0"])
    ∧ get_file_ext "file.xyz" = some "xyz"
    ∧ dictGet IMPORT_FILTER_MAP "xyz" = none
    ∧ (CsvConverter.convert ⟨⟨none⟩⟩ "file.xyz" "out" false false false).1.head?
        = some (Event.load (path_to_url "file.xyz") []) :=
  ⟨by decide,
   (claim3_import_filter_selection none "sample.CSV" "out" false false false).1 (by decide),
   by decide, by decide,
   (claim3_import_filter_selection none "file.xyz" "out" false false false).2 "xyz"
     (by decide) (by decide)⟩

/-- C6: a missing refresh capability (the `AttributeError` case) is a no-op:
the run has the same outcome as the run of the same document with a working
refresh, and the same event trace except for the absent refresh call — in
particular `convert` proceeds to the per-sheet export loop and does not fail
because of the missing capability. -/
theorem claim6_refresh_unsupported_no_op (names : List String) (f : Option Nat)
    (input out : String) (slow keep ig : Bool) :
    (CsvConverter.convert ⟨⟨some ⟨names, RefreshOutcome.unsupported, f⟩⟩⟩
        input out slow keep ig).2
      = (CsvConverter.convert ⟨⟨some ⟨names, RefreshOutcome.ok, f⟩⟩⟩
        input out slow keep ig).2
    ∧ (CsvConverter.convert ⟨⟨some ⟨names, RefreshOutcome.unsupported, f⟩⟩⟩
        input out slow keep ig).1
      = (CsvConverter.convert ⟨⟨some ⟨names, RefreshOutcome.ok, f⟩⟩⟩
        input out slow keep ig).1.filter notRefresh := by
  constructor
  · rfl
  · rw [convert_ok_eq, convert_unsupported_eq]
    have hloop : (exportLoop out slow ig f names.enum).1.filter notRefresh
        = (exportLoop out slow ig f names.enum).1 :=
      List.filter_eq_self.mpr (fun a ha => by
        simp [notRefresh, exportLoop_no_refresh out slow ig f names.enum a ha])
    have hload : notRefresh (Event.load (path_to_url input)
        (dict_to_uno_properties (load_properties_for input))) = true := rfl
    have hrc : notRefresh Event.refreshCall = false := rfl
    have hclose : notRefresh (Event.close true) = true := rfl
    cases keep <;>
      simp [List.cons_append, List.filter_cons, List.filter_append,
        hload, hrc, hclose, hloop]

/-- Splitting a character list at its last slash and re-appending gives the
original list back. -/
theorem before_append_after (l : List Char) :
    beforeLastSlash l ++ afterLastSlash l = l := by
  unfold beforeLastSlash afterLastSlash
  rw [← List.reverse_append, List.takeWhile_append_dropWhile, List.reverse_reverse]

/-- When the final path component contains no dot, `os.path.splitext` returns
the whole path and an empty extension. -/
theorem splitext_no_dot (p : String) (h : ('.' ∈ afterLastSlash p.data) → False) :
    os_path_splitext p = (p, "") := by
  have hdw : (afterLastSlash p.data).reverse.dropWhile (fun c => c ≠ '.') = [] := by
    rw [List.dropWhile_eq_nil_iff]
    intro x hx
    simp only [ne_eq, decide_eq_true_eq]
    intro he
    exact h (he ▸ (List.mem_reverse.mp hx))
  have hcomp : splitextComponent (afterLastSlash p.data)
      = (afterLastSlash p.data, []) := by
    unfold splitextComponent
    rw [hdw]
  have hmk : String.mk p.data = p := by cases p; rfl
  have h1 : os_path_splitext p
      = (String.mk (beforeLastSlash p.data
            ++ (splitextComponent (afterLastSlash p.data)).1),
         String.mk (splitextComponent (afterLastSlash p.data)).2) := rfl
  simp only [hcomp] at h1
  rw [before_append_after] at h1
  rw [h1, hmk]

/-- C7: if the store of sheet index `k` (0-based, so sheet `K = k+1` of `N`)
raises a remote I/O error, `convert` neither retries nor catches it: exactly
the files for the sheets before `k` have been written, in order; nothing is
written for sheet `k` or any later sheet; with `keep_open=false` the cleanup
close still runs, exactly once and as the very last remote call, and the
`ErrorCodeIOException` then propagates to the caller for the whole call. -/
theorem claim7_export_failure_truncates (names : List String) (r : RefreshOutcome)
    (k : Nat) (input out : String) (slow ig : Bool)
    (hr : r ≠ RefreshOutcome.failure) (hk : k < names.length) :
    (CsvConverter.convert ⟨⟨some ⟨names, r, some k⟩⟩⟩ input out slow false ig).2
        = Except.error PyError.errorCodeIOException
    ∧ storeUrls (CsvConverter.convert ⟨⟨some ⟨names, r, some k⟩⟩⟩ input out slow false ig).1
        = (names.enum.take k).map (sheet_output_url out ig)
    ∧ ∃ pre, (CsvConverter.convert ⟨⟨some ⟨names, r, some k⟩⟩⟩ input out slow false ig).1
        = pre ++ [Event.close true] ∧ closeCount pre = 0 := by
  have henum : names.enum = List.enumFrom 0 names := rfl
  have hfail := exportLoop_fail out slow ig names 0 k (Nat.zero_le k) (by simpa using hk)
  cases r with
  | failure => exact absurd rfl hr
  | ok =>
    rw [convert_ok_eq]
    refine ⟨?_, ?_, ?_⟩
    · rw [henum]
      exact hfail.2
    · simp only [List.cons_append]
      rw [storeUrls_cons_load, storeUrls_cons_refresh, storeUrls_append, henum]
      simp [hfail.1, storeUrls_cons_close, storeUrls_nil]
    · refine ⟨Event.load (path_to_url input)
          (dict_to_uno_properties (load_properties_for input))
        :: Event.refreshCall :: (exportLoop out slow ig (some k) names.enum).1, ?_, ?_⟩
      · simp [List.cons_append]
      · have hc := exportLoop_closeCount out slow ig (some k) names.enum
        simp only [closeCount] at hc ⊢
        simp [List.countP_cons, Event.isClose, hc]
  | unsupported =>
    rw [convert_unsupported_eq]
    refine ⟨?_, ?_, ?_⟩
    · rw [henum]
      exact hfail.2
    · simp only [List.cons_append]
      rw [storeUrls_cons_load, storeUrls_append, henum]
      simp [hfail.1, storeUrls_cons_close, storeUrls_nil]
    · refine ⟨Event.load (path_to_url input)
          (dict_to_uno_properties (load_properties_for input))
        :: (exportLoop out slow ig (some k) names.enum).1, ?_, ?_⟩
      · simp [List.cons_append]
      · have hc := exportLoop_closeCount out slow ig (some k) names.enum
        simp only [closeCount] at hc ⊢
        simp [List.countP_cons, Event.isClose, hc]

/-- C7 (witness): a three-sheet document whose second store (index 1) fails:
only `Alpha.csv` is written, the close is last, and the error propagates. -/
theorem claim7_witness :
    (CsvConverter.convert ⟨⟨some ⟨["Alpha", "Beta", "Gamma"], RefreshOutcome.ok, some 1⟩⟩⟩
        "wb.ods" "out" false false false).2
        = Except.error PyError.errorCodeIOException
    ∧ storeUrls (CsvConverter.convert
          ⟨⟨some ⟨["Alpha", "Beta", "Gamma"], RefreshOutcome.ok, some 1⟩⟩⟩
          "wb.ods" "out" false false false).1
        = ((["Alpha", "Beta", "Gamma"] : List String).enum.take 1).map
            (sheet_output_url "out" false)
    ∧ ∃ pre, (CsvConverter.convert
          ⟨⟨some ⟨["Alpha", "Beta", "Gamma"], RefreshOutcome.ok, some 1⟩⟩⟩
          "wb.ods" "out" false false false).1
        = pre ++ [Event.close true] ∧ closeCount pre = 0 :=
  claim7_export_failure_truncates ["Alpha", "Beta", "Gamma"] RefreshOutcome.ok 1
    "wb.ods" "out" false false (by decide) (by decide)

/-- C8 (counterexample): the claim asserts `N` pauses in total for every
invocation with `slow=true` on an `N`-sheet document.  On a two-sheet document
whose very first store fails, the loop is abandoned after the first iteration
and only one pause has been performed, not two. -/
theorem claim8_counterexample :
    ((⟨["A", "B"], RefreshOutcome.ok, some 0⟩ : RemoteDoc).sheetNames.length = 2)
    ∧ sleepCount (CsvConverter.convert ⟨⟨some ⟨["A", "B"], RefreshOutcome.ok, some 0⟩⟩⟩
        "book.ods" "out" true false false).1 = 1 :=
  ⟨rfl, by decide⟩

/-- C8 (amended): with `slow=true` exactly one fixed 1-second pause is
performed immediately before each sheet that is processed — on every run the
pause count equals the sheet-activation count, and on a run whose export loop
completes (no store failure) that is exactly `N` pauses for `N` sheets, the
loop emitting per sheet, in order: pause, activate, store.  With `slow=false`
no pause is ever performed, on any run. -/
theorem claim8_slow_pause (names : List String) (r : RefreshOutcome)
    (input out : String) (keep ig : Bool) (h : r ≠ RefreshOutcome.failure) :
    sleepCount (CsvConverter.convert ⟨⟨some ⟨names, r, none⟩⟩⟩ input out true keep ig).1
        = names.length
    ∧ exportLoop out true ig none names.enum
        = (names.enum.flatMap (fun p =>
            [Event.sleep 1, Event.setActiveSheet p.1,
             Event.store (sheet_output_url out ig p)
               (dict_to_uno_properties CSV_EXPORT_FILTER)]),
           Except.ok ())
    ∧ (∀ (d : Option RemoteDoc) (keep2 ig2 : Bool),
        sleepCount (CsvConverter.convert ⟨⟨d⟩⟩ input out false keep2 ig2).1 = 0)
    ∧ (∀ (d : Option RemoteDoc) (keep2 ig2 : Bool),
        sleepCount (CsvConverter.convert ⟨⟨d⟩⟩ input out true keep2 ig2).1
          = setActiveCount (CsvConverter.convert ⟨⟨d⟩⟩ input out true keep2 ig2).1) := by
  refine ⟨?_, ?_, ?_, ?_⟩
  · have hc := exportLoop_sleepCount_true_none out ig names.enum
    cases r with
    | failure => exact absurd rfl h
    | ok =>
      rw [convert_ok_eq]
      simp only [sleepCount] at hc ⊢
      cases keep <;>
        simp [List.cons_append, List.countP_cons, List.countP_append,
          Event.isSleep, hc, List.enum_length]
    | unsupported =>
      rw [convert_unsupported_eq]
      simp only [sleepCount] at hc ⊢
      cases keep <;>
        simp [List.cons_append, List.countP_cons, List.countP_append,
          Event.isSleep, hc, List.enum_length]
  · have hev := exportLoop_events_none out true ig names.enum
    simpa using hev
  · intro d keep2 ig2
    cases d with
    | none => rfl
    | some doc =>
      obtain ⟨ns, r2, f2⟩ := doc
      have hc := exportLoop_sleepCount_false out ig2 f2 ns.enum
      cases r2 with
      | failure => rfl
      | ok =>
        rw [convert_ok_eq]
        simp only [sleepCount] at hc ⊢
        cases keep2 <;>
          simp [List.cons_append, List.countP_cons, List.countP_append,
            Event.isSleep, hc]
      | unsupported =>
        rw [convert_unsupported_eq]
        simp only [sleepCount] at hc ⊢
        cases keep2 <;>
          simp [List.cons_append, List.countP_cons, List.countP_append,
            Event.isSleep, hc]
  · intro d keep2 ig2
    cases d with
    | none => rfl
    | some doc =>
      obtain ⟨ns, r2, f2⟩ := doc
      have hc := exportLoop_sleep_eq_setActive out ig2 f2 ns.enum
      cases r2 with
      | failure => rfl
      | ok =>
        rw [convert_ok_eq]
        simp only [sleepCount, setActiveCount] at hc ⊢
        cases keep2 <;>
          simp [List.cons_append, List.countP_cons, List.countP_append,
            Event.isSleep, Event.isSetActiveSheet, hc]
      | unsupported =>
        rw [convert_unsupported_eq]
        simp only [sleepCount, setActiveCount] at hc ⊢
        cases keep2 <;>
          simp [List.cons_append, List.countP_cons, List.countP_append,
            Event.isSleep, Event.isSetActiveSheet, hc]

/-- C8 (witness): a two-sheet document converted successfully with
`slow=true` pauses exactly twice. -/
theorem claim8_witness :
    sleepCount (CsvConverter.convert ⟨⟨some ⟨["A", "B"], RefreshOutcome.ok, none⟩⟩⟩
        "book.ods" "out" true false false).1 = (["A", "B"] : List String).length
    ∧ exportLoop "out" true false none (["A", "B"] : List String).enum
        = ((["A", "B"] : List String).enum.flatMap (fun p =>
            [Event.sleep 1, Event.setActiveSheet p.1,
             Event.store (sheet_output_url "out" false p)
               (dict_to_uno_properties CSV_EXPORT_FILTER)]),
           Except.ok ())
    ∧ (∀ (d : Option RemoteDoc) (keep2 ig2 : Bool),
        sleepCount (CsvConverter.convert ⟨⟨d⟩⟩ "book.ods" "out" false keep2 ig2).1 = 0)
    ∧ (∀ (d : Option RemoteDoc) (keep2 ig2 : Bool),
        sleepCount (CsvConverter.convert ⟨⟨d⟩⟩ "book.ods" "out" true keep2 ig2).1
          = setActiveCount (CsvConverter.convert ⟨⟨d⟩⟩ "book.ods" "out" true keep2 ig2).1) :=
  claim8_slow_pause ["A", "B"] RefreshOutcome.ok "book.ods" "out" false false (by decide)

/-- C9: every `storeToURL` call of every run passes the same fixed property
set, built from `CSV_EXPORT_FILTER` — which is also exactly the import filter
registered for the `csv` extension. -/
theorem claim9_export_filter_constant (d : Option RemoteDoc) (input out : String)
    (slow keep ig : Bool) :
    (∀ u pr, Event.store u pr ∈ (CsvConverter.convert ⟨⟨d⟩⟩ input out slow keep ig).1 →
        pr = dict_to_uno_properties CSV_EXPORT_FILTER)
    ∧ dictGet IMPORT_FILTER_MAP "csv" = some CSV_EXPORT_FILTER
    ∧ dict_to_uno_properties CSV_EXPORT_FILTER
        = [PropertyValue.mk "FilterName" "Text - txt - csv (StarCalc)",
           PropertyValue.mk "FilterOptions" "44,34,0"] := by
  refine ⟨?_, by decide, rfl⟩
  intro u pr hmem
  cases d with
  | none =>
    rw [convert_loadfail_eq] at hmem
    simp at hmem
  | some doc =>
    obtain ⟨names, r, f⟩ := doc
    cases r with
    | failure =>
      rw [convert_refreshfail_eq] at hmem
      simp at hmem
    | ok =>
      rw [convert_ok_eq] at hmem
      simp only [List.cons_append, List.mem_cons, List.mem_append] at hmem
      rcases hmem with hh | hh | hh | hh
      · simp at hh
      · simp at hh
      · exact exportLoop_storeProps out slow ig f names.enum u pr hh
      · cases keep <;> simp_all
    | unsupported =>
      rw [convert_unsupported_eq] at hmem
      simp only [List.cons_append, List.mem_cons, List.mem_append] at hmem
      rcases hmem with hh | hh | hh
      · simp at hh
      · exact exportLoop_storeProps out slow ig f names.enum u pr hh
      · cases keep <;> simp_all

/-- C9 (witness): a one-sheet document stores `S.csv` with exactly the fixed
export property set. -/
theorem claim9_witness :
    Event.store "file://out/S.csv" (dict_to_uno_properties CSV_EXPORT_FILTER)
        ∈ (CsvConverter.convert ⟨⟨some ⟨["S"], RefreshOutcome.ok, none⟩⟩⟩
            "in.ods" "out" false false false).1
    ∧ dict_to_uno_properties CSV_EXPORT_FILTER
        = [PropertyValue.mk "FilterName" "Text - txt - csv (StarCalc)",
           PropertyValue.mk "FilterOptions" "44,34,0"] :=
  ⟨by decide,
   (claim9_export_filter_constant (some ⟨["S"], RefreshOutcome.ok, none⟩)
       "in.ods" "out" false false false).1 "file://out/S.csv"
     (dict_to_uno_properties CSV_EXPORT_FILTER) (by decide)⟩

/-- C10: for an input path whose final component contains no dot,
`get_file_ext` returns the empty string (wrapped in `some`), not `None` —
contrary to the comment above the function; the empty string is not a key of
`IMPORT_FILTER_MAP`, so such a document is loaded with an empty property set
(service auto-detection). -/
theorem claim10_no_extension (p out : String) (d : Option RemoteDoc)
    (slow keep ig : Bool) (h : ('.' ∈ afterLastSlash p.data) → False) :
    get_file_ext p = some ""
    ∧ get_file_ext p ≠ none
    ∧ dictGet IMPORT_FILTER_MAP "" = none
    ∧ (CsvConverter.convert ⟨⟨d⟩⟩ p out slow keep ig).1.head?
        = some (Event.load (path_to_url p) []) := by
  have hs := splitext_no_dot p h
  have hext : get_file_ext p = some "" := by
    unfold get_file_ext
    rw [hs]
    rfl
  refine ⟨hext, by simp [hext], by decide, ?_⟩
  have hlp : load_properties_for p = [] := by
    simp only [load_properties_for, hext]
    decide
  rw [convert_head, hlp]
  rfl

/-- C10 (witness): `Makefile` has no dot in its final component; its extension
is the empty string and the load carries no properties. -/
theorem claim10_witness :
    (('.' ∈ afterLastSlash ("Makefile" : String).data) → False)
    ∧ (get_file_ext "Makefile" = some ""
       ∧ get_file_ext "Makefile" ≠ none
       ∧ dictGet IMPORT_FILTER_MAP "" = none
       ∧ (CsvConverter.convert ⟨⟨none⟩⟩ "Makefile" "out" false false false).1.head?
           = some (Event.load (path_to_url "Makefile") [])) :=
  ⟨by decide,
   claim10_no_extension "Makefile" "out" none false false false (by decide)⟩

end PyODCsvConverter
